import Mathlib

/-!
Verification of the RunPod serverless handler for Wan2.2-S2V-14B
(`src/handler.py`) against its natural-language specification.

The handler is a Python function with filesystem and subprocess effects.
We embed it shallowly:

* Python values that can appear in a job mapping are modelled by `PyVal`
  (scalars plus one level of containers; the handler never inspects deeper
  nesting, so this depth suffices for every property below).  The value of
  the top-level `input` key is a `JobVal` (a string-keyed mapping of
  `PyVal`s, or any non-mapping value).
* The standard library boundary (base64 codec, `subprocess.run`, directory
  globbing, file reads) is an oracle `World`: the handler is a pure
  function of the job and the world.  Python floats are carried opaquely by
  their decimal rendering; the only operation the source applies to the
  `cfg` float is `str`.
* Side effects relevant to the specification (scratch-directory creation
  and removal, files staged, the command vector handed to
  `subprocess.run`, whether a child process was started / is still running
  when the handler returns) are recorded in a `Trace`.
* Exceptions the source lets escape (attribute/type errors on
  non-string fields) surface as `HandlerOutput.exn`; dictionaries the
  source returns surface as `HandlerOutput.ret`.
* `tempfile.TemporaryDirectory` is a context manager, so its cleanup runs
  both on normal return and on an escaping exception; the embedding sets
  `tempDirRemoved` on every exit from the `with` block accordingly.
  `subprocess.run` kills the child and waits for it before re-raising
  `TimeoutExpired`, and is synchronous otherwise, so `procRunningAfter`
  is false in each outcome of the executor stage.
-/

/-- Python scalar values (strings, ints, floats by their decimal rendering,
booleans, None). -/
inductive PyScalar where
  | pstr (s : String)
  | pint (n : Int)
  | pfloat (r : String)
  | pbool (b : Bool)
  | pnone
  deriving DecidableEq

/-- Python values that can sit in a job-input field: scalars plus one level
of containers (lists of scalars, string-keyed dicts of scalars). -/
inductive PyVal where
  | pstr (s : String)
  | pint (n : Int)
  | pfloat (r : String)
  | pbool (b : Bool)
  | pnone
  | plist (xs : List PyScalar)
  | pdict (kvs : List (String × PyScalar))
  deriving DecidableEq

/-- The value of the top-level `input` key: either a string-keyed mapping
(what `isinstance(job_input, dict)` accepts) or any other value. -/
inductive JobVal where
  | pdict (kvs : List (String × PyVal))
  | nondict (v : PyVal)
  deriving DecidableEq

/-- The job object handed to the handler: a string-keyed mapping (the
source only ever reads its `input` key). -/
abbrev Job := List (String × JobVal)

/-- Lookup in a string-keyed mapping (`d.get(k)` / `k in d`). -/
def dictGet {α : Type} (kvs : List (String × α)) (k : String) : Option α :=
  match kvs with
  | [] => none
  | (k', v) :: rest => if k' = k then some v else dictGet rest k

/-- Name of the Python type of a value, as it appears in exception texts. -/
def pyTypeName : PyVal → String
  | .pstr _ => "str"
  | .pint _ => "int"
  | .pfloat _ => "float"
  | .pbool _ => "bool"
  | .pnone => "NoneType"
  | .plist _ => "list"
  | .pdict _ => "dict"

/-- Python truthiness of a value (`if v:`).  A float is falsy when its
rendering is `0.0`; this approximates Python only on exotic renderings such
as `-0.0`, which no property below exercises. -/
def pyTruthy : PyVal → Bool
  | .pstr s => !s.data.isEmpty
  | .pint n => n != 0
  | .pfloat r => r != "0.0"
  | .pbool b => b
  | .pnone => false
  | .plist xs => !xs.isEmpty
  | .pdict kvs => !kvs.isEmpty

/-- Python `str(v)` for scalars; container rendering is abbreviated (no
property below depends on it, since only `steps` and `cfg` flow through
`str` and their renderings are opaque to every theorem). -/
def pyStr : PyVal → String
  | .pstr s => s
  | .pint n => toString n
  | .pfloat r => r
  | .pbool b => if b then "True" else "False"
  | .pnone => "None"
  | .plist _ => "<list>"
  | .pdict _ => "<dict>"

/-- Whether `pre` is a prefix of `s` (`s.startswith(pre)` on strings),
computed on the underlying character lists so that it evaluates in the
kernel. -/
def strStartsWith (s pre : String) : Bool := pre.data.isPrefixOf s.data

/-- Whether `sub` occurs as a contiguous substring of `hay` (Python
`sub in hay` on strings). -/
def strContains (hay sub : String) : Bool :=
  (List.range (hay.data.length + 1)).any fun i => sub.data.isPrefixOf (hay.data.drop i)

/-- The substring after the first comma, if any (`s.split(",", 1)[1]`,
which raises `IndexError` when no comma is present). -/
def afterComma : List Char → Option (List Char)
  | [] => none
  | c :: cs => if c = ',' then some cs else afterComma cs

/-- Exceptions the handler can let escape (the source catches everything
raised under its two `try` blocks, but lines 87 and 94 and the `seed >= 0`
comparison at line 136 run outside any `try`). -/
inductive PyExc where
  | attributeError (msg : String)
  | typeError (msg : String)
  deriving DecidableEq

/-- Python `sub in v` for the values of this model: substring test on
strings, membership on lists, key membership on dicts, `TypeError`
otherwise. -/
def pyContains (v : PyVal) (sub : String) : Except PyExc Bool :=
  match v with
  | .pstr s => .ok (strContains s sub)
  | .plist xs => .ok (xs.contains (.pstr sub))
  | .pdict kvs => .ok (kvs.any fun kv => kv.1 == sub)
  | v => .error (.typeError ("argument of type '" ++ pyTypeName v ++ "' is not iterable"))

/-- Image extension chosen by lines 86-90 for a string payload: `.png` and
`.webp` on the corresponding data-URI prefixes, `.jpg` otherwise. -/
def imageExtStr (s : String) : String :=
  if strStartsWith s "data:image/png" then ".png"
  else if strStartsWith s "data:image/webp" then ".webp"
  else ".jpg"

/-- Lines 86-90: `image_b64.startswith(...)` raises `AttributeError` on a
non-string payload; on a string it selects the extension. -/
def imageExtOf : PyVal → Except PyExc String
  | .pstr s => .ok (imageExtStr s)
  | v => .error (.attributeError
      ("'" ++ pyTypeName v ++ "' object has no attribute 'startswith'"))

/-- Audio extension chosen by lines 93-95 for a string payload: `.mp3`
when `audio/mp3` or `audio/mpeg` occurs anywhere in the payload (the
source uses substring containment, not a header test), `.wav` otherwise. -/
def audioExtStr (s : String) : String :=
  if strContains s "audio/mp3" || strContains s "audio/mpeg" then ".mp3" else ".wav"

/-- Lines 93-95: `"audio/mp3" in audio_b64 or "audio/mpeg" in audio_b64`,
with Python's `in` semantics (short-circuit, `TypeError` on
non-container non-string values). -/
def audioExtOf (v : PyVal) : Except PyExc String :=
  match pyContains v "audio/mp3" with
  | .error e => .error e
  | .ok b1 =>
      if b1 then .ok ".mp3"
      else
        match pyContains v "audio/mpeg" with
        | .error e => .error e
        | .ok b2 => if b2 then .ok ".mp3" else .ok ".wav"

/-- Outcome of `subprocess.run` on the built command: normal completion
with exit code and captured streams, `TimeoutExpired` (after which the
stdlib has killed and waited for the child), or any other exception while
launching/running (binary missing, non-string argument, ...). -/
inductive RunOutcome where
  | completed (returncode : Int) (stdout stderr : String)
  | timedOut
  | launchFailure (msg : String)

/-- The standard-library / operating-system boundary, per invocation:
the base64 codec (error message or decoded bytes), the behaviour of
`subprocess.run` on a command vector, the list returned by
`temp_path.glob("*.mp4")`, and `encode_file_to_base64` (file read plus
base64 encode, which may fail). -/
structure World where
  b64decode : String → Except String String
  run : List PyVal → RunOutcome
  glob : List String
  encode_file_to_base64 : String → Except String String

/-- Decode part of `save_base64_to_file` (lines 24-33): strip a `data:`
header up to the first comma when present (raising `IndexError` when a
`data:`-prefixed payload has no comma), then base64-decode; a non-string
payload raises `AttributeError` at `b64_data.startswith`.  Both callers
wrap this in `try`, so failures are returned as the exception's message.
The file write on success is recorded by the caller in the `Trace`. -/
def save_base64_to_file (w : World) (v : PyVal) : Except String String :=
  match v with
  | .pstr s =>
      if strStartsWith s "data:" then
        match afterComma s.data with
        | some rest => w.b64decode (String.mk rest)
        | none => .error "list index out of range"
      else w.b64decode s
  | v => .error ("'" ++ pyTypeName v ++ "' object has no attribute 'startswith'")

/-- Specification-relevant side effects of one invocation. -/
structure Trace where
  tempDirCreated : Bool
  filesWritten : List String
  tempDirRemoved : Bool
  procInvoked : Bool
  procRunningAfter : Bool
  builtCmd : Option (List PyVal)
  deriving DecidableEq

/-- Trace of an invocation that has touched nothing. -/
def Trace.init : Trace :=
  { tempDirCreated := false, filesWritten := [], tempDirRemoved := false,
    procInvoked := false, procRunningAfter := false, builtCmd := none }

/-- Trace during staging: the scratch directory exists, the given files
have been written, no process has been started. -/
def stageTrace (files : List String) : Trace :=
  { tempDirCreated := true, filesWritten := files, tempDirRemoved := false,
    procInvoked := false, procRunningAfter := false, builtCmd := none }

/-- What one handler invocation produces: a returned dictionary or an
escaping exception. -/
inductive HandlerOutput where
  | ret (kvs : List (String × PyVal))
  | exn (e : PyExc)
  deriving DecidableEq

/-- The bare error dictionary the source returns in most failure paths. -/
def retError (msg : String) : HandlerOutput := .ret [("error", .pstr msg)]

/-- Process-wide configuration read from the environment at startup
(lines 17-21). -/
structure Config where
  MODEL_DIR : String
  DEFAULT_SIZE : String
  DEFAULT_STEPS : Int
  OFFLOAD_MODEL : Bool

/-- The reference deployment's configuration (the defaults in lines
18-21). -/
def defaultConfig : Config :=
  { MODEL_DIR := "/models/Wan2.2-S2V-14B", DEFAULT_SIZE := "832*480",
    DEFAULT_STEPS := 30, OFFLOAD_MODEL := true }

/-- Abstract path of the interpreter (`sys.executable`). -/
def sys_executable : String := "/usr/bin/python3"

/-- Abstract path of the per-job scratch directory created by
`tempfile.TemporaryDirectory()`. -/
def scratchDir : String := "/tmp/job-scratch"

/-- Lines 118-143: the argument vector, in source order: the fixed block,
then `--prompt` if the prompt is truthy, `--negative_prompt` if the
negative prompt is truthy, the seed block, `--offload_model True` if
configured, and `--pose_video` if a pose file was staged. -/
def buildCmd (c : Config) (size prompt negative_prompt : PyVal)
    (stepsStr cfgStr : String) (seedPart : List PyVal)
    (image_path audio_path output_dir : String)
    (pose_path : Option String) : List PyVal :=
  [.pstr sys_executable, .pstr "generate.py",
   .pstr "--task", .pstr "s2v-14B",
   .pstr "--size", size,
   .pstr "--ckpt_dir", .pstr c.MODEL_DIR,
   .pstr "--image", .pstr image_path,
   .pstr "--audio", .pstr audio_path,
   .pstr "--output_dir", .pstr output_dir,
   .pstr "--sample_steps", .pstr stepsStr,
   .pstr "--cfg_scale", .pstr cfgStr]
  ++ (if pyTruthy prompt then [.pstr "--prompt", prompt] else [])
  ++ (if pyTruthy negative_prompt then [.pstr "--negative_prompt", negative_prompt] else [])
  ++ seedPart
  ++ (if c.OFFLOAD_MODEL then [.pstr "--offload_model", .pstr "True"] else [])
  ++ (match pose_path with
      | some p => [.pstr "--pose_video", .pstr p]
      | none => [])

/-- Python `seed >= 0` (line 136): defined for ints, bools and floats,
`TypeError` otherwise (which the source does not catch). -/
def pyGeZero : PyVal → Except PyExc Bool
  | .pint n => .ok (decide (0 ≤ n))
  | .pbool _ => .ok true
  | .pfloat r => .ok (!strStartsWith r "-")
  | v => .error (.typeError
      ("'>=' not supported between instances of '" ++ pyTypeName v ++ "' and 'int'"))

/-- Lines 136-137: the seed contributes `["--seed", str(seed)]` exactly
when `seed >= 0`, and the comparison itself can raise. -/
def seedArgs (seed : PyVal) : Except PyExc (List PyVal) :=
  match pyGeZero seed with
  | .error e => .error e
  | .ok b => .ok (if b then [.pstr "--seed", .pstr (pyStr seed)] else [])

/-- Trace update of the executor stage: a child was started; by the time
`subprocess.run` returns (normal exit, launch failure, or the stdlib's
kill-and-wait on `TimeoutExpired`) the child is no longer running. -/
def execTrace (tr : Trace) (cmd : List PyVal) : Trace :=
  { tr with procInvoked := true, procRunningAfter := false, builtCmd := some cmd }

/-- Lines 146-182: run the command under the 600-second deadline and, on
exit code zero, collect the first `*.mp4` glob hit and encode it.  Every
outcome is converted to a returned dictionary. -/
def execAndCollect (w : World) (cmd : List PyVal) (tr : Trace) :
    HandlerOutput × Trace :=
  match w.run cmd with
  | .timedOut => (retError "Generation timed out (10 minutes)", execTrace tr cmd)
  | .launchFailure m => (retError ("Generation failed: " ++ m), execTrace tr cmd)
  | .completed rc out err =>
      if rc ≠ 0 then
        (.ret [("error", .pstr ("Generation failed: " ++ err)),
               ("stdout", .pstr out)], execTrace tr cmd)
      else
        match w.glob with
        | [] => (.ret [("error", .pstr "No output video generated"),
                       ("stdout", .pstr out), ("stderr", .pstr err)], execTrace tr cmd)
        | f :: _ =>
            match w.encode_file_to_base64 f with
            | .error e => (retError ("Failed to encode output: " ++ e), execTrace tr cmd)
            | .ok v => (.ret [("video", .pstr v)], execTrace tr cmd)

/-- Lines 136-182 after staging: evaluate the seed comparison (which can
raise), build the command, then execute and collect. -/
def afterStaging (c : Config) (w : World)
    (size prompt negative_prompt steps cfg seed : PyVal)
    (image_path audio_path : String) (pose_path : Option String)
    (tr : Trace) : HandlerOutput × Trace :=
  match seedArgs seed with
  | .error e => (.exn e, tr)
  | .ok sa =>
      execAndCollect w
        (buildCmd c size prompt negative_prompt (pyStr steps) (pyStr cfg) sa
          image_path audio_path scratchDir pose_path) tr

/-- Lines 70-182: the part of the handler that runs inside
`with tempfile.TemporaryDirectory()`: parameter extraction with defaults,
extension detection (can raise), staging of image/audio/pose (decode
failures caught and returned), then `afterStaging`. -/
def body (c : Config) (w : World) (ji : List (String × PyVal)) :
    HandlerOutput × Trace :=
  let image_b64 := (dictGet ji "image_base64").getD .pnone
  let audio_b64 := (dictGet ji "audio_base64").getD .pnone
  let prompt := (dictGet ji "prompt").getD (.pstr "")
  let negative_prompt :=
    (dictGet ji "negative_prompt").getD (.pstr "blurry, low quality, distorted")
  let size := (dictGet ji "size").getD (.pstr c.DEFAULT_SIZE)
  let steps := (dictGet ji "steps").getD (.pint c.DEFAULT_STEPS)
  let cfg := (dictGet ji "cfg").getD (.pfloat "5.0")
  let seed := (dictGet ji "seed").getD (.pint (-1))
  let pose_video_b64 := (dictGet ji "pose_video_base64").getD .pnone
  match imageExtOf image_b64 with
  | .error e => (.exn e, stageTrace [])
  | .ok image_ext =>
    match audioExtOf audio_b64 with
    | .error e => (.exn e, stageTrace [])
    | .ok audio_ext =>
        let image_path := scratchDir ++ "/input" ++ image_ext
        let audio_path := scratchDir ++ "/input" ++ audio_ext
        match save_base64_to_file w image_b64 with
        | .error e => (retError ("Failed to decode input: " ++ e), stageTrace [])
        | .ok _ =>
            match save_base64_to_file w audio_b64 with
            | .error e =>
                (retError ("Failed to decode input: " ++ e), stageTrace [image_path])
            | .ok _ =>
                if pyTruthy pose_video_b64 then
                  match save_base64_to_file w pose_video_b64 with
                  | .error e =>
                      (retError ("Failed to decode pose video: " ++ e),
                       stageTrace [image_path, audio_path])
                  | .ok _ =>
                      let pose_path := scratchDir ++ "/pose.mp4"
                      afterStaging c w size prompt negative_prompt steps cfg seed
                        image_path audio_path (some pose_path)
                        (stageTrace [image_path, audio_path, pose_path])
                else
                  afterStaging c w size prompt negative_prompt steps cfg seed
                    image_path audio_path none
                    (stageTrace [image_path, audio_path])

/-- Exit of the `with tempfile.TemporaryDirectory()` block: whatever the
body produced (a returned dictionary or an escaping exception), the
context manager removes the scratch directory and everything in it. -/
def finishScratch (r : HandlerOutput × Trace) : HandlerOutput × Trace :=
  (r.1, { r.2 with tempDirRemoved := true })

/-- Lines 42-182: the handler.  Validation (lines 60-68) runs before the
scratch directory exists; the `with` block guarantees scratch removal on
every exit from `body`, returns and exceptions alike. -/
def handler (c : Config) (w : World) (job : Job) : HandlerOutput × Trace :=
  match dictGet job "input" with
  | some (.pdict job_input) =>
      if (dictGet job_input "image_base64").isNone then
        (retError "Missing required field: image_base64", Trace.init)
      else if (dictGet job_input "audio_base64").isNone then
        (retError "Missing required field: audio_base64", Trace.init)
      else
        finishScratch (body c w job_input)
  | _ => (retError "Invalid request: missing 'input' field", Trace.init)

/-- Recognizer for the success shape `{"video": <string>}`. -/
def successShape : HandlerOutput → Bool
  | .ret [("video", .pstr _)] => true
  | _ => false

/-- Recognizer for the error shapes the source can return:
`{"error": <string>}`, optionally with `"stdout"` and then `"stderr"`
string fields. -/
def errorShape : HandlerOutput → Bool
  | .ret [("error", .pstr _)] => true
  | .ret [("error", .pstr _), ("stdout", .pstr _)] => true
  | .ret [("error", .pstr _), ("stdout", .pstr _), ("stderr", .pstr _)] => true
  | _ => false

/-- Exactly one of the two Job Result shapes (in particular, a returned
dictionary, not an exception). -/
def goodShape (o : HandlerOutput) : Prop :=
  (successShape o || errorShape o) = true ∧ (successShape o && errorShape o) = false

-- Decidable equality for `Except`, used to evaluate the handler on
-- concrete inputs in witnesses and counterexamples.
deriving instance DecidableEq for Except

/-- A field value that is a string, or an absent field. -/
def isStrOrAbsent : Option PyVal → Bool
  | some (.pstr _) => true
  | none => true
  | _ => false

/-- A value on which Python's `in` test (line 94) is defined: strings,
lists and dicts.  For such an `audio_base64` the extension test cannot
raise; a non-string among them only fails later, inside the `try` of
lines 102-106, which the source catches. -/
def isIterable : PyVal → Bool
  | .pstr _ => true
  | .plist _ => true
  | .pdict _ => true
  | _ => false

/-- A field value on which Python's `in` is defined, or an absent field. -/
def isIterOrAbsent : Option PyVal → Bool
  | some v => isIterable v
  | none => true

/-- A field value on which Python's `>= 0` is defined (int, bool, float),
or an absent field. -/
def isNumOrAbsent : Option PyVal → Bool
  | some (.pint _) => true
  | some (.pbool _) => true
  | some (.pfloat _) => true
  | none => true
  | _ => false

/-- Jobs on which the source raises no exception: `image_base64` is a
string when present (line 87 applies `startswith` to it outside any
`try`), `audio_base64` is a string, list or dict when present (line 94
applies `in` to it outside any `try`, which is defined on those types;
container values then fail harmlessly inside the `try` of lines 102-106),
and `seed` is a number when present (line 136 compares it with `0`
outside any `try`).  Every other field may be any value. -/
def tameInput (job : Job) : Bool :=
  match dictGet job "input" with
  | some (.pdict ji) =>
      isStrOrAbsent (dictGet ji "image_base64") &&
        isIterOrAbsent (dictGet ji "audio_base64") && isNumOrAbsent (dictGet ji "seed")
  | _ => true

/-- A world in which every stage succeeds: the codec accepts everything,
the external program exits 0, and one output file is found. -/
def wHappy : World :=
  { b64decode := fun s => .ok s,
    run := fun _ => .completed 0 "" "",
    glob := ["/tmp/job-scratch/output.mp4"],
    encode_file_to_base64 := fun _ => .ok "VID" }

/-- A minimal valid job: both required fields present, as plain base64. -/
def jobOk : Job :=
  [("input", .pdict [("image_base64", .pstr "QUJD"), ("audio_base64", .pstr "UkVG")])]

/-- A world whose external program always exceeds the 600-second deadline. -/
def wTimeout : World :=
  { b64decode := fun s => .ok s,
    run := fun _ => .timedOut,
    glob := [],
    encode_file_to_base64 := fun _ => .ok "" }

/-- A world whose external program exits 0 but produces no `*.mp4` file. -/
def wNoOut : World :=
  { b64decode := fun s => .ok s,
    run := fun _ => .completed 0 "SO" "SE",
    glob := [],
    encode_file_to_base64 := fun _ => .ok "" }

/-- A world whose codec rejects exactly the payload `!!!!` (which is indeed
not base64) with the stdlib's message, and accepts everything else. -/
def wBad7 : World :=
  { b64decode := fun s =>
      if s = "!!!!" then .error "Invalid base64-encoded string: invalid characters"
      else .ok s,
    run := fun _ => .completed 0 "" "",
    glob := [],
    encode_file_to_base64 := fun _ => .ok "" }

/-- A job whose image payload is malformed and whose audio payload is fine. -/
def jobC7img : Job :=
  [("input", .pdict [("image_base64", .pstr "!!!!"), ("audio_base64", .pstr "QUJD")])]

/-- A job whose audio payload is malformed and whose image payload is fine. -/
def jobC7aud : Job :=
  [("input", .pdict [("image_base64", .pstr "QUJD"), ("audio_base64", .pstr "!!!!")])]

/-- A valid job that explicitly supplies `negative_prompt` as the empty
string. -/
def jobC8 : Job :=
  [("input", .pdict [("image_base64", .pstr "QUJD"), ("audio_base64", .pstr "UkVG"),
    ("negative_prompt", .pstr "")])]

/-- On a string payload the audio-extension computation never raises and
equals the containment rule `audioExtStr`. -/
theorem audioExtOf_pstr (s : String) : audioExtOf (.pstr s) = .ok (audioExtStr s) := by
  unfold audioExtOf pyContains audioExtStr
  cases h1 : strContains s "audio/mp3" <;> cases h2 : strContains s "audio/mpeg" <;>
    simp [h1, h2]

/-- Every outcome of the executor/collector stage is one of the two Job
Result shapes. -/
theorem goodShape_execAndCollect (w : World) (cmd : List PyVal) (tr : Trace) :
    goodShape (execAndCollect w cmd tr).1 := by
  unfold execAndCollect goodShape
  split
  · exact ⟨rfl, rfl⟩
  · exact ⟨rfl, rfl⟩
  · split
    · exact ⟨rfl, rfl⟩
    · split
      · exact ⟨rfl, rfl⟩
      · split
        · exact ⟨rfl, rfl⟩
        · exact ⟨rfl, rfl⟩

/-- When the seed comparison is defined, everything after staging produces
one of the two Job Result shapes. -/
theorem goodShape_afterStaging (c : Config) (w : World)
    (size prompt negative_prompt steps cfg seed : PyVal)
    (image_path audio_path : String) (pose_path : Option String) (tr : Trace)
    (hseed : ∃ b, pyGeZero seed = .ok b) :
    goodShape (afterStaging c w size prompt negative_prompt steps cfg seed
      image_path audio_path pose_path tr).1 := by
  obtain ⟨b, hb⟩ := hseed
  unfold afterStaging seedArgs
  rw [hb]
  exact goodShape_execAndCollect ..

/-- On every value admitting Python's `in` test, the audio-extension
computation of lines 93-95 succeeds (whatever the payload later does in
the decode stage). -/
theorem audioExt_ok (v : PyVal) (h : isIterable v = true) :
    ∃ ext, audioExtOf v = .ok ext := by
  cases v with
  | pstr s => exact ⟨_, audioExtOf_pstr s⟩
  | plist xs =>
      simp only [audioExtOf, pyContains]
      split
      · exact ⟨_, rfl⟩
      · split
        · exact ⟨_, rfl⟩
        · exact ⟨_, rfl⟩
  | pdict kvs =>
      simp only [audioExtOf, pyContains]
      split
      · exact ⟨_, rfl⟩
      · split
        · exact ⟨_, rfl⟩
        · exact ⟨_, rfl⟩
  | pint n => simp [isIterable] at h
  | pfloat r => simp [isIterable] at h
  | pbool b => simp [isIterable] at h
  | pnone => simp [isIterable] at h

/-- An iterable-or-absent field that is present admits the audio-extension
computation. -/
theorem iterOrAbsent_audioExt (o : Option PyVal) (h : isIterOrAbsent o = true)
    (hn : o.isNone = false) :
    ∃ ext, audioExtOf (o.getD .pnone) = .ok ext := by
  cases o with
  | none => simp at hn
  | some v => exact audioExt_ok v (by simpa [isIterOrAbsent] using h)

/-- With a string image payload, an audio payload admitting the `in` test,
and a defined seed comparison, the body inside the scratch block produces
one of the two Job Result shapes. -/
theorem goodShape_body (c : Config) (w : World) (ji : List (String × PyVal))
    (h1 : ∃ s, (dictGet ji "image_base64").getD .pnone = .pstr s)
    (h2 : ∃ ext, audioExtOf ((dictGet ji "audio_base64").getD .pnone) = .ok ext)
    (h3 : ∃ b, pyGeZero ((dictGet ji "seed").getD (.pint (-1))) = .ok b) :
    goodShape (body c w ji).1 := by
  obtain ⟨si, hsi⟩ := h1
  obtain ⟨aext, hext⟩ := h2
  simp only [body, hsi, hext, imageExtOf]
  split
  · exact ⟨rfl, rfl⟩
  · split
    · exact ⟨rfl, rfl⟩
    · split
      · split
        · exact ⟨rfl, rfl⟩
        · exact goodShape_afterStaging _ _ _ _ _ _ _ _ _ _ _ _ h3
      · exact goodShape_afterStaging _ _ _ _ _ _ _ _ _ _ _ _ h3

/-- A string-or-absent field that is present is a string. -/
theorem strOrAbsent_getD (o : Option PyVal) (h : isStrOrAbsent o = true)
    (hn : o.isNone = false) : ∃ s, o.getD .pnone = .pstr s := by
  cases o with
  | none => simp at hn
  | some v => cases v <;> simp_all [isStrOrAbsent]

/-- On a numeric-or-absent seed field, the `seed >= 0` comparison is
defined. -/
theorem numOrAbsent_geZero (o : Option PyVal) (h : isNumOrAbsent o = true) :
    ∃ b, pyGeZero (o.getD (.pint (-1))) = .ok b := by
  cases o with
  | none => exact ⟨_, rfl⟩
  | some v => cases v <;> simp_all [isNumOrAbsent, pyGeZero]

/-- C1, amended.  For every job whose `image_base64` field is a string
when present, whose `audio_base64` field is a string, list or dict when
present (the values on which line 94's `in` test is defined; a container
audio payload then merely fails inside the `try` of lines 102-106 and
yields a clean decode error), and whose `seed` is a number when present,
the handler returns exactly one of the two Job Result shapes
(`{"video": <string>}`, or `{"error": <string>}` optionally with
`"stdout"`/`"stderr"`), and no exception escapes.  As stated the claim is
false: for a non-string `image_base64`, a non-iterable `audio_base64`
(int, float, bool, None), or a non-numeric `seed`, an exception escapes
the handler (see the counterexample). -/
theorem C1_shape (c : Config) (w : World) (job : Job) (h : tameInput job = true) :
    goodShape (handler c w job).1 := by
  unfold handler
  unfold tameInput at h
  split
  next ji heq =>
    rw [heq] at h
    simp only [Bool.and_eq_true] at h
    obtain ⟨⟨h1, h2⟩, h3⟩ := h
    split
    · exact ⟨rfl, rfl⟩
    · split
      · exact ⟨rfl, rfl⟩
      · next hni hna =>
          rw [Bool.not_eq_true] at hni hna
          exact goodShape_body c w ji (strOrAbsent_getD _ h1 hni)
            (iterOrAbsent_audioExt _ h2 hna) (numOrAbsent_geZero _ h3)
  next => exact ⟨rfl, rfl⟩

/-- C1, counterexample.  On a job whose `image_base64` is the integer 5,
the handler raises `AttributeError` at line 87 (`image_b64.startswith`,
outside any `try`): the exception escapes, and the result is neither of
the two Job Result shapes. -/
theorem C1_escape :
    (handler defaultConfig wHappy
      [("input", .pdict [("image_base64", .pint 5), ("audio_base64", .pstr "QUJD")])]).1
        = .exn (.attributeError "'int' object has no attribute 'startswith'") ∧
    successShape (handler defaultConfig wHappy
      [("input", .pdict [("image_base64", .pint 5), ("audio_base64", .pstr "QUJD")])]).1
        = false ∧
    errorShape (handler defaultConfig wHappy
      [("input", .pdict [("image_base64", .pint 5), ("audio_base64", .pstr "QUJD")])]).1
        = false := by
  decide

/-- Witness for C1: the amended theorem at a concrete all-strings job and
at a job whose audio payload is a list (where line 94 succeeds and the
decode failure at line 104 is caught, so the result is still one of the
two shapes). -/
theorem C1_shape_wit :
    goodShape (handler defaultConfig wHappy jobOk).1 ∧
    goodShape (handler defaultConfig wHappy
      [("input", .pdict [("image_base64", .pstr "QUJD"),
        ("audio_base64", .plist [])])]).1 :=
  ⟨C1_shape defaultConfig wHappy jobOk (by decide),
   C1_shape defaultConfig wHappy
     [("input", .pdict [("image_base64", .pstr "QUJD"),
       ("audio_base64", .plist [])])] (by decide)⟩

/-- C2.  A missing or non-mapping `input` wrapper, a missing
`image_base64`, and a missing `audio_base64` each produce their own error
result (three pairwise distinct messages), with the trace showing that no
scratch directory was created, no file was written, and the external
program was not invoked (`Trace.init`).  Validation runs before the
scratch block, so this holds for every world. -/
theorem C2_validation (c : Config) (w : World) (job : Job) :
    ((∀ ji, dictGet job "input" ≠ some (.pdict ji)) →
       handler c w job = (retError "Invalid request: missing 'input' field", Trace.init)) ∧
    (∀ ji, dictGet job "input" = some (.pdict ji) → dictGet ji "image_base64" = none →
       handler c w job = (retError "Missing required field: image_base64", Trace.init)) ∧
    (∀ ji v, dictGet job "input" = some (.pdict ji) → dictGet ji "image_base64" = some v →
        dictGet ji "audio_base64" = none →
       handler c w job = (retError "Missing required field: audio_base64", Trace.init)) ∧
    ("Invalid request: missing 'input' field" ≠ "Missing required field: image_base64" ∧
     "Invalid request: missing 'input' field" ≠ "Missing required field: audio_base64" ∧
     "Missing required field: image_base64" ≠ "Missing required field: audio_base64") := by
  refine ⟨?_, ?_, ?_, by decide, by decide, by decide⟩
  · intro h
    unfold handler
    split
    next ji heq => exact absurd heq (h ji)
    next => rfl
  · intro ji hji hi
    unfold handler
    rw [hji]
    simp [hi]
  · intro ji v hji hi ha
    unfold handler
    rw [hji]
    simp [hi, ha]

/-- Witness for C2: the three failure modes at concrete jobs (list-valued
wrapper, missing image, missing audio). -/
theorem C2_validation_wit :
    handler defaultConfig wHappy [("input", .nondict (.plist []))]
      = (retError "Invalid request: missing 'input' field", Trace.init) ∧
    handler defaultConfig wHappy [("input", .pdict [("audio_base64", .pstr "QUJD")])]
      = (retError "Missing required field: image_base64", Trace.init) ∧
    handler defaultConfig wHappy [("input", .pdict [("image_base64", .pstr "QUJD")])]
      = (retError "Missing required field: audio_base64", Trace.init) :=
  ⟨(C2_validation defaultConfig wHappy _).1 (by intro ji h; simp [dictGet] at h),
   (C2_validation defaultConfig wHappy _).2.1 _ (by rfl) (by rfl),
   (C2_validation defaultConfig wHappy _).2.2.1 _ _ (by rfl) (by rfl) (by rfl)⟩

/-- The executor stage always finishes with the executor trace update. -/
theorem execAndCollect_trace (w : World) (cmd : List PyVal) (tr : Trace) :
    (execAndCollect w cmd tr).2 = execTrace tr cmd := by
  unfold execAndCollect
  split
  · rfl
  · rfl
  · split
    · rfl
    · split
      · rfl
      · split
        · rfl
        · rfl

/-- The post-staging stages do not change whether the scratch directory
was created. -/
theorem afterStaging_created (c : Config) (w : World)
    (size prompt negative_prompt steps cfg seed : PyVal)
    (image_path audio_path : String) (pose_path : Option String) (tr : Trace) :
    (afterStaging c w size prompt negative_prompt steps cfg seed
      image_path audio_path pose_path tr).2.tempDirCreated = tr.tempDirCreated := by
  unfold afterStaging
  split
  · rfl
  · rw [execAndCollect_trace]; rfl

/-- The body always runs with the scratch directory created. -/
theorem body_created (c : Config) (w : World) (ji : List (String × PyVal)) :
    (body c w ji).2.tempDirCreated = true := by
  simp only [body]
  split
  · rfl
  · split
    · rfl
    · split
      · rfl
      · split
        · rfl
        · split
          · split
            · rfl
            · rw [afterStaging_created]; rfl
          · rw [afterStaging_created]; rfl

/-- The handler removes the scratch directory exactly when it created
one. -/
theorem handler_removed_eq (c : Config) (w : World) (job : Job) :
    (handler c w job).2.tempDirRemoved = (handler c w job).2.tempDirCreated := by
  unfold handler
  split
  · split
    · rfl
    · split
      · rfl
      · exact (body_created c w _).symm
  · rfl

/-- When the external program exceeds the 600-second deadline, the
executor stage returns the timeout error with the executor trace update. -/
theorem execAndCollect_timeout (w : World) (cmd : List PyVal) (tr : Trace)
    (h : w.run cmd = .timedOut) :
    execAndCollect w cmd tr
      = (retError "Generation timed out (10 minutes)", execTrace tr cmd) := by
  unfold execAndCollect
  rw [h]

/-- If every run of the external program times out and the post-staging
stages did start a process, the result is the timeout error and no child
process is left running. -/
theorem afterStaging_timeout (c : Config) (w : World)
    (size prompt negative_prompt steps cfg seed : PyVal)
    (image_path audio_path : String) (pose_path : Option String) (tr : Trace)
    (hrun : ∀ cmd, w.run cmd = .timedOut) (htr : tr.procInvoked = false) :
    (afterStaging c w size prompt negative_prompt steps cfg seed
        image_path audio_path pose_path tr).2.procInvoked = true →
      (afterStaging c w size prompt negative_prompt steps cfg seed
        image_path audio_path pose_path tr).1
          = retError "Generation timed out (10 minutes)" ∧
      (afterStaging c w size prompt negative_prompt steps cfg seed
        image_path audio_path pose_path tr).2.procRunningAfter = false := by
  unfold afterStaging
  split
  · intro hinv
    rw [htr] at hinv
    exact Bool.noConfusion hinv
  · rw [execAndCollect_timeout _ _ _ (hrun _)]
    intro _
    exact ⟨rfl, rfl⟩

/-- Lifting of the timeout property through the body. -/
theorem body_timeout (c : Config) (w : World) (ji : List (String × PyVal))
    (hrun : ∀ cmd, w.run cmd = .timedOut) :
    (body c w ji).2.procInvoked = true →
      (body c w ji).1 = retError "Generation timed out (10 minutes)" ∧
      (body c w ji).2.procRunningAfter = false := by
  simp only [body]
  split
  · intro hinv; exact Bool.noConfusion hinv
  · split
    · intro hinv; exact Bool.noConfusion hinv
    · split
      · intro hinv; exact Bool.noConfusion hinv
      · split
        · intro hinv; exact Bool.noConfusion hinv
        · split
          · split
            · intro hinv; exact Bool.noConfusion hinv
            · exact afterStaging_timeout c w _ _ _ _ _ _ _ _ _ _ hrun rfl
          · exact afterStaging_timeout c w _ _ _ _ _ _ _ _ _ _ hrun rfl

/-- C3.  If the external program exceeds the 600-second deadline (every
run of this invocation's world times out) and the handler did start it,
the handler returns the timeout error shape; no child process remains
running when the handler returns (`subprocess.run` kills and waits for the
child before re-raising `TimeoutExpired`); and the timeout message differs
from the message returned for every non-zero exit code (those are
`"Generation failed: " ++ stderr`). -/
theorem C3_timeout (c : Config) (w : World) (job : Job)
    (hrun : ∀ cmd, w.run cmd = .timedOut)
    (hinv : (handler c w job).2.procInvoked = true) :
    (handler c w job).1 = retError "Generation timed out (10 minutes)" ∧
    (handler c w job).2.procRunningAfter = false ∧
    (∀ s, retError "Generation timed out (10 minutes)"
        ≠ retError ("Generation failed: " ++ s)) := by
  have hdist : ∀ s : String, retError "Generation timed out (10 minutes)"
      ≠ retError ("Generation failed: " ++ s) := by
    intro s h
    simp only [retError, HandlerOutput.ret.injEq, List.cons.injEq, Prod.mk.injEq,
      PyVal.pstr.injEq, and_true, true_and] at h
    have hd : ("Generation timed out (10 minutes)").data
        = ("Generation failed: ").data ++ s.data := by
      rw [h]
      exact String.data_append ..
    have hp : ("Generation failed: ").data.isPrefixOf
        (("Generation failed: ").data ++ s.data) = true := by
      rw [ List.isPrefixOf_iff_prefix]
      exact ⟨s.data, rfl⟩
    rw [← hd] at hp
    exact absurd hp (by decide)
  revert hinv
  unfold handler
  split
  · split
    · intro hinv; exact Bool.noConfusion hinv
    · split
      · intro hinv; exact Bool.noConfusion hinv
      · intro hinv
        obtain ⟨h1, h2⟩ := body_timeout c w _ hrun hinv
        exact ⟨h1, h2, hdist⟩
  · intro hinv; exact Bool.noConfusion hinv

/-- Witness for C3: a concrete valid job against a world that always
times out. -/
theorem C3_timeout_wit :
    (handler defaultConfig wTimeout jobOk).1
      = retError "Generation timed out (10 minutes)" ∧
    (handler defaultConfig wTimeout jobOk).2.procRunningAfter = false ∧
    (∀ s, retError "Generation timed out (10 minutes)"
        ≠ retError ("Generation failed: " ++ s)) :=
  C3_timeout defaultConfig wTimeout jobOk (fun _ => rfl) (by decide)

/-- C4.  Every invocation that creates a scratch directory removes it (and
with it every staged and produced file) by the time the handler returns:
`tempfile.TemporaryDirectory` is used as a context manager, whose cleanup
runs on every exit path of the body -- success, decode failure, launch
failure, non-zero exit, timeout, missing output, encode failure, and even
the escaping-exception paths. -/
theorem C4_cleanup (c : Config) (w : World) (job : Job)
    (h : (handler c w job).2.tempDirCreated = true) :
    (handler c w job).2.tempDirRemoved = true := by
  rw [handler_removed_eq]
  exact h

/-- Witness for C4: a concrete job that creates the scratch directory. -/
theorem C4_cleanup_wit :
    (handler defaultConfig wHappy jobOk).2.tempDirCreated = true ∧
    (handler defaultConfig wHappy jobOk).2.tempDirRemoved = true :=
  ⟨by decide, C4_cleanup defaultConfig wHappy jobOk (by decide)⟩

/-- A block placed between two append chains is contained in the whole
list (position of the seed block in the command). -/
theorem seg_mid {α : Type} (A B C m D E : List α) :
    m <:+: A ++ B ++ C ++ m ++ D ++ E := by
  refine ⟨A ++ B ++ C, D ++ E, ?_⟩
  simp [List.append_assoc]

/-- A block placed between two append chains is contained in the whole
list (position of the negative-prompt block in the command). -/
theorem seg_mid2 {α : Type} (A B m C D E : List α) :
    m <:+: A ++ B ++ m ++ C ++ D ++ E := by
  refine ⟨A ++ B, C ++ (D ++ E), ?_⟩
  simp [List.append_assoc]

/-- C5.  For an integer seed, and provided no other argument of the
command happens to be the literal string `--seed` (the fixed flags and the
request-controlled strings are all distinct from it), the built command
contains the consecutive block `--seed <decimal seed>` when the seed is
at least 0, and contains no `--seed` argument at all when the seed is
negative -- in particular the sentinel -1 never appears. -/
theorem C5_seed (c : Config) (size prompt negative_prompt : PyVal)
    (stepsStr cfgStr image_path audio_path output_dir : String)
    (pose_path : Option String) (n : Int) (sa : List PyVal)
    (hsa : seedArgs (.pint n) = .ok sa)
    (hothers : PyVal.pstr "--seed" ∉ [size, prompt, negative_prompt, .pstr stepsStr,
      .pstr cfgStr, .pstr image_path, .pstr audio_path, .pstr output_dir,
      .pstr c.MODEL_DIR, .pstr sys_executable])
    (hpose : ∀ p, pose_path = some p → p ≠ "--seed") :
    ((0:Int) ≤ n → [PyVal.pstr "--seed", PyVal.pstr (toString n)] <:+:
        buildCmd c size prompt negative_prompt stepsStr cfgStr sa
          image_path audio_path output_dir pose_path) ∧
    (n < 0 → PyVal.pstr "--seed" ∉
        buildCmd c size prompt negative_prompt stepsStr cfgStr sa
          image_path audio_path output_dir pose_path) := by
  have hsa' : sa = if decide (0 ≤ n) = true then
      [PyVal.pstr "--seed", PyVal.pstr (toString n)] else [] :=
    Except.ok.inj (hsa.symm.trans rfl)
  simp only [List.mem_cons, List.not_mem_nil, or_false] at hothers
  push_neg at hothers
  obtain ⟨o1, o2, o3, o4, o5, o6, o7, o8, o9, o10⟩ := hothers
  constructor
  · intro h0
    rw [hsa', if_pos (decide_eq_true h0)]
    unfold buildCmd
    exact seg_mid ..
  · intro hneg
    have hd : ¬ (decide (0 ≤ n) = true) := by
      simp only [decide_eq_true_eq]
      omega
    rw [hsa', if_neg hd]
    intro hmem
    unfold buildCmd at hmem
    rcases pose_path with _ | p
    · by_cases hp : pyTruthy prompt = true <;>
        by_cases hnp : pyTruthy negative_prompt = true <;>
        by_cases ho : c.OFFLOAD_MODEL = true <;>
        simp [hp, hnp, ho, sys_executable] at hmem <;>
        simp_all
    · have hpv : p ≠ "--seed" := hpose p rfl
      by_cases hp : pyTruthy prompt = true <;>
        by_cases hnp : pyTruthy negative_prompt = true <;>
        by_cases ho : c.OFFLOAD_MODEL = true <;>
        simp [hp, hnp, ho, sys_executable] at hmem <;>
        simp_all

/-- Witness for C5: at seed 3 the block `--seed 3` is in the default
command; at seed -1 no `--seed` argument occurs. -/
theorem C5_seed_wit :
    ([PyVal.pstr "--seed", PyVal.pstr (toString (3:Int))] <:+:
      buildCmd defaultConfig (.pstr "832*480") (.pstr "")
        (.pstr "blurry, low quality, distorted") "30" "5.0"
        [PyVal.pstr "--seed", PyVal.pstr (toString (3:Int))]
        "/tmp/job-scratch/input.jpg" "/tmp/job-scratch/input.wav" scratchDir none) ∧
    (PyVal.pstr "--seed" ∉
      buildCmd defaultConfig (.pstr "832*480") (.pstr "")
        (.pstr "blurry, low quality, distorted") "30" "5.0" []
        "/tmp/job-scratch/input.jpg" "/tmp/job-scratch/input.wav" scratchDir none) :=
  ⟨(C5_seed defaultConfig (.pstr "832*480") (.pstr "")
      (.pstr "blurry, low quality, distorted") "30" "5.0"
      "/tmp/job-scratch/input.jpg" "/tmp/job-scratch/input.wav" scratchDir none 3 _
      rfl (by decide) (fun p hp => by cases hp)).1 (by decide),
   (C5_seed defaultConfig (.pstr "832*480") (.pstr "")
      (.pstr "blurry, low quality, distorted") "30" "5.0"
      "/tmp/job-scratch/input.jpg" "/tmp/job-scratch/input.wav" scratchDir none (-1) []
      (by decide) (by decide) (fun p hp => by cases hp)).2 (by decide)⟩

/-- The Bool prefix test coincides with list-level prefixes. -/
theorem strStartsWith_iff {s p : String} :
    strStartsWith s p = true ↔ p.data <+: s.data := by
  unfold strStartsWith
  exact List.isPrefixOf_iff_prefix

/-- A substring occurring anywhere in a string is found by
`strContains`. -/
theorem strContains_of_sub {s sub : String} (h : sub.data <:+: s.data) :
    strContains s sub = true := by
  obtain ⟨pre, post, hpp⟩ := h
  unfold strContains
  rw [List.any_eq_true]
  refine ⟨pre.length, List.mem_range.mpr ?_, ?_⟩
  · rw [← hpp]
    simp [List.length_append]
    omega
  · rw [← hpp, List.append_assoc, List.drop_left]
    rw [ List.isPrefixOf_iff_prefix]
    exact ⟨post, rfl⟩

/-- C6, amended.  The image extension follows the data-URI header exactly
as claimed: `.png` and `.webp` on their headers, `.jpg` when there is no
`data:` header (and also for `data:image/jpeg`).  The audio extension is
`.mp3` under an mp3/mpeg data-URI header and `.wav` whenever neither
`audio/mp3` nor `audio/mpeg` occurs anywhere in the payload; but the
source tests substring containment rather than the header, so a
headerless payload in which either substring happens to occur is staged
as `.mp3`, not the claimed default `.wav` (see the counterexample). -/
theorem C6_ext :
    (∀ s, strStartsWith s "data:image/png" = true → imageExtOf (.pstr s) = .ok ".png") ∧
    (∀ s, strStartsWith s "data:image/webp" = true → imageExtOf (.pstr s) = .ok ".webp") ∧
    (∀ s, strStartsWith s "data:" = false → imageExtOf (.pstr s) = .ok ".jpg") ∧
    (∀ s, strStartsWith s "data:audio/mp3" = true ∨ strStartsWith s "data:audio/mpeg" = true →
        audioExtOf (.pstr s) = .ok ".mp3") ∧
    (∀ s, strContains s "audio/mp3" = false → strContains s "audio/mpeg" = false →
        audioExtOf (.pstr s) = .ok ".wav") := by
  refine ⟨?_, ?_, ?_, ?_, ?_⟩
  · intro s h
    simp [imageExtOf, imageExtStr, h]
  · intro s h
    have hnp : strStartsWith s "data:image/png" = false := by
      by_contra hb
      rw [Bool.not_eq_false] at hb
      have h1 := strStartsWith_iff.mp h
      have h2 := strStartsWith_iff.mp hb
      rcases List.prefix_or_prefix_of_prefix h2 h1 with hc | hc
      · exact absurd ( List.isPrefixOf_iff_prefix.mpr hc) (by decide)
      · exact absurd ( List.isPrefixOf_iff_prefix.mpr hc) (by decide)
    simp [imageExtOf, imageExtStr, hnp, h]
  · intro s h
    have hnp : strStartsWith s "data:image/png" = false := by
      by_contra hb
      rw [Bool.not_eq_false] at hb
      have hpre : ("data:").data <+: s.data :=
        List.IsPrefix.trans ( List.isPrefixOf_iff_prefix.mp (by decide))
          (strStartsWith_iff.mp hb)
      have hx := strStartsWith_iff.mpr hpre
      rw [h] at hx
      exact Bool.noConfusion hx
    have hnw : strStartsWith s "data:image/webp" = false := by
      by_contra hb
      rw [Bool.not_eq_false] at hb
      have hpre : ("data:").data <+: s.data :=
        List.IsPrefix.trans ( List.isPrefixOf_iff_prefix.mp (by decide))
          (strStartsWith_iff.mp hb)
      have hx := strStartsWith_iff.mpr hpre
      rw [h] at hx
      exact Bool.noConfusion hx
    simp [imageExtOf, imageExtStr, hnp, hnw]
  · intro s h
    rw [audioExtOf_pstr]
    rcases h with h | h
    · have hc : strContains s "audio/mp3" = true :=
        strContains_of_sub
          (List.IsInfix.trans
            (⟨("data:").data, [], by decide⟩ :
              ("audio/mp3").data <:+: ("data:audio/mp3").data)
            (strStartsWith_iff.mp h).isInfix)
      simp [audioExtStr, hc]
    · have hc : strContains s "audio/mpeg" = true :=
        strContains_of_sub
          (List.IsInfix.trans
            (⟨("data:").data, [], by decide⟩ :
              ("audio/mpeg").data <:+: ("data:audio/mpeg").data)
            (strStartsWith_iff.mp h).isInfix)
      simp [audioExtStr, hc]
  · intro s h1 h2
    rw [audioExtOf_pstr]
    simp [audioExtStr, h1, h2]

/-- C6, counterexample.  `audio/mp3AAA` is a valid headerless base64
payload (twelve base64-alphabet characters), yet the source stages it
with extension `.mp3`, not the claimed default `.wav`, because
`"audio/mp3" in audio_b64` tests containment anywhere, not a header. -/
theorem C6_ext_cx :
    audioExtOf (.pstr "audio/mp3AAA") = .ok ".mp3" ∧
    audioExtOf (.pstr "audio/mp3AAA") ≠ .ok ".wav" ∧
    strStartsWith "audio/mp3AAA" "data:" = false := by
  refine ⟨by decide, by decide, by decide⟩

/-- Witness for C6: each case of the amended theorem at a concrete
payload. -/
theorem C6_ext_wit :
    imageExtOf (.pstr "data:image/png;base64,QUJD") = .ok ".png" ∧
    imageExtOf (.pstr "data:image/webp;base64,QUJD") = .ok ".webp" ∧
    imageExtOf (.pstr "QUJD") = .ok ".jpg" ∧
    audioExtOf (.pstr "data:audio/mp3;base64,QUJD") = .ok ".mp3" ∧
    audioExtOf (.pstr "data:audio/mpeg;base64,QUJD") = .ok ".mp3" ∧
    audioExtOf (.pstr "QUJD") = .ok ".wav" :=
  ⟨C6_ext.1 _ (by decide),
   C6_ext.2.1 _ (by decide),
   C6_ext.2.2.1 _ (by decide),
   C6_ext.2.2.2.1 _ (.inl (by decide)),
   C6_ext.2.2.2.1 _ (.inr (by decide)),
   C6_ext.2.2.2.2 _ (by decide) (by decide)⟩

/-- C7, amended.  A malformed image or audio payload fails the whole job
at the staging stage with the error `"Failed to decode input: " ++ <codec
message>` -- the same message family for both fields, so the message does
not identify which of the two failed (the claimed per-field reporting
holds only for the pose video, whose failures read `"Failed to decode pose
video: ..."`); no subsequent stage runs (the external program is not
invoked) and the scratch directory is removed. -/
theorem C7_decode (c : Config) (w : World) (job : Job)
    (ji : List (String × PyVal)) (iS aS m : String)
    (hw : dictGet job "input" = some (.pdict ji))
    (hi : dictGet ji "image_base64" = some (.pstr iS))
    (ha : dictGet ji "audio_base64" = some (.pstr aS))
    (hfail : save_base64_to_file w (.pstr iS) = .error m ∨
       ((∃ b, save_base64_to_file w (.pstr iS) = .ok b) ∧
         save_base64_to_file w (.pstr aS) = .error m)) :
    (handler c w job).1 = retError ("Failed to decode input: " ++ m) ∧
    (handler c w job).2.procInvoked = false ∧
    (handler c w job).2.tempDirRemoved = true := by
  unfold handler
  rw [hw]
  rcases hfail with hf | ⟨⟨b, hok⟩, hf⟩
  · simp [body, hi, ha, hf, imageExtOf, audioExtOf_pstr, finishScratch, stageTrace]
  · simp [body, hi, ha, hok, hf, imageExtOf, audioExtOf_pstr, finishScratch, stageTrace]

/-- C7, counterexample.  Two jobs in the same world, one with a malformed
image payload (and fine audio), one with a malformed audio payload (and
fine image), produce the identical error result: the message does not
identify which of the fields failed to decode. -/
theorem C7_decode_cx :
    (handler defaultConfig wBad7 jobC7img).1
      = retError "Failed to decode input: Invalid base64-encoded string: invalid characters" ∧
    (handler defaultConfig wBad7 jobC7aud).1
      = retError "Failed to decode input: Invalid base64-encoded string: invalid characters" ∧
    jobC7img ≠ jobC7aud := by
  decide

/-- Witness for C7: the amended theorem applied at the malformed-audio
job. -/
theorem C7_decode_wit :
    (handler defaultConfig wBad7 jobC7aud).1
      = retError ("Failed to decode input: "
          ++ "Invalid base64-encoded string: invalid characters") ∧
    (handler defaultConfig wBad7 jobC7aud).2.procInvoked = false ∧
    (handler defaultConfig wBad7 jobC7aud).2.tempDirRemoved = true :=
  C7_decode defaultConfig wBad7 jobC7aud _ "QUJD" "!!!!"
    "Invalid base64-encoded string: invalid characters" rfl rfl rfl
    (.inr ⟨⟨"QUJD", rfl⟩, rfl⟩)

/-- C8, amended.  The effective negative prompt of a request that omits
the field is the non-empty default, and the built command then contains
the consecutive block `--negative_prompt <value>`; the block is present
exactly when the effective value is truthy, so a request that explicitly
supplies `negative_prompt` as a falsy value (for example the empty
string) gets no `--negative_prompt` argument at all -- contrary to the
claim's "always appended, including when the request explicitly supplies
the field" (see the counterexample).  As in C5, the other arguments are
assumed distinct from the literal flag string. -/
theorem C8_negative (c : Config) (size prompt : PyVal)
    (stepsStr cfgStr image_path audio_path output_dir : String)
    (seedPart : List PyVal) (pose_path : Option String)
    (hothers : PyVal.pstr "--negative_prompt" ∉
      size :: prompt :: (.pstr stepsStr) :: (.pstr cfgStr) :: (.pstr image_path) ::
        (.pstr audio_path) :: (.pstr output_dir) :: (.pstr c.MODEL_DIR) ::
        (.pstr sys_executable) :: seedPart)
    (hpose : ∀ p, pose_path = some p → p ≠ "--negative_prompt") :
    (∀ ji : List (String × PyVal), dictGet ji "negative_prompt" = none →
       (dictGet ji "negative_prompt").getD (.pstr "blurry, low quality, distorted")
         = .pstr "blurry, low quality, distorted") ∧
    pyTruthy (.pstr "blurry, low quality, distorted") = true ∧
    (∀ np : PyVal, pyTruthy np = true →
       [PyVal.pstr "--negative_prompt", np] <:+:
         buildCmd c size prompt np stepsStr cfgStr seedPart
           image_path audio_path output_dir pose_path) ∧
    (∀ np : PyVal, pyTruthy np = false →
       PyVal.pstr "--negative_prompt" ∉
         buildCmd c size prompt np stepsStr cfgStr seedPart
           image_path audio_path output_dir pose_path) := by
  simp only [List.mem_cons, not_or] at hothers
  obtain ⟨o1, o2, o3, o4, o5, o6, o7, o8, o9, o10⟩ := hothers
  refine ⟨?_, by decide, ?_, ?_⟩
  · intro ji h
    rw [h]
    rfl
  · intro np hnp
    unfold buildCmd
    rw [if_pos hnp]
    exact seg_mid2 ..
  · intro np hnp hmem
    unfold buildCmd at hmem
    rw [hnp] at hmem
    rcases pose_path with _ | p
    · by_cases hp : pyTruthy prompt = true <;>
        by_cases ho : c.OFFLOAD_MODEL = true <;>
        simp [hp, ho, sys_executable] at hmem <;>
        simp_all
    · have hpv : p ≠ "--negative_prompt" := hpose p rfl
      by_cases hp : pyTruthy prompt = true <;>
        by_cases ho : c.OFFLOAD_MODEL = true <;>
        simp [hp, ho, sys_executable] at hmem <;>
        simp_all

/-- Witness for C8: default-filled field, appended flag for the default
value, and omitted flag for an empty value. -/
theorem C8_negative_wit :
    ((dictGet ([("image_base64", .pstr "QUJD")] : List (String × PyVal))
       "negative_prompt").getD (.pstr "blurry, low quality, distorted")
         = .pstr "blurry, low quality, distorted") ∧
    ([PyVal.pstr "--negative_prompt", PyVal.pstr "blurry, low quality, distorted"] <:+:
      buildCmd defaultConfig (.pstr "832*480") (.pstr "")
        (.pstr "blurry, low quality, distorted") "30" "5.0" []
        "/tmp/job-scratch/input.jpg" "/tmp/job-scratch/input.wav" scratchDir none) ∧
    (PyVal.pstr "--negative_prompt" ∉
      buildCmd defaultConfig (.pstr "832*480") (.pstr "") (.pstr "") "30" "5.0" []
        "/tmp/job-scratch/input.jpg" "/tmp/job-scratch/input.wav" scratchDir none) :=
  ⟨(C8_negative defaultConfig (.pstr "832*480") (.pstr "") "30" "5.0"
      "/tmp/job-scratch/input.jpg" "/tmp/job-scratch/input.wav" scratchDir [] none
      (by decide) (fun p hp => by cases hp)).1 _ rfl,
   (C8_negative defaultConfig (.pstr "832*480") (.pstr "") "30" "5.0"
      "/tmp/job-scratch/input.jpg" "/tmp/job-scratch/input.wav" scratchDir [] none
      (by decide) (fun p hp => by cases hp)).2.2.1 _ (by decide),
   (C8_negative defaultConfig (.pstr "832*480") (.pstr "") "30" "5.0"
      "/tmp/job-scratch/input.jpg" "/tmp/job-scratch/input.wav" scratchDir [] none
      (by decide) (fun p hp => by cases hp)).2.2.2 _ (by decide)⟩

/-- C8, counterexample.  A fully valid request that explicitly supplies
`negative_prompt` as the empty string reaches the execution stage (the
result is the success shape), its command is built, and that command
contains no `--negative_prompt` argument. -/
theorem C8_negative_cx :
    dictGet [("image_base64", PyVal.pstr "QUJD"), ("audio_base64", .pstr "UkVG"),
        ("negative_prompt", .pstr "")] "negative_prompt" = some (.pstr "") ∧
    (handler defaultConfig wHappy jobC8).2.builtCmd ≠ none ∧
    PyVal.pstr "--negative_prompt" ∉
      ((handler defaultConfig wHappy jobC8).2.builtCmd.getD []) ∧
    successShape (handler defaultConfig wHappy jobC8).1 = true := by
  refine ⟨by decide, by decide, by decide, by decide⟩

/-- A fully staged request (strings, successful decodes, no pose, defined
seed) hands the built command to the executor stage and returns its
result through the scratch-cleanup wrapper. -/
theorem handler_to_exec (c : Config) (w : World) (job : Job)
    (ji : List (String × PyVal)) (iS aS bi ba : String) (sa : List PyVal)
    (hw : dictGet job "input" = some (.pdict ji))
    (hi : dictGet ji "image_base64" = some (.pstr iS))
    (ha : dictGet ji "audio_base64" = some (.pstr aS))
    (hdi : save_base64_to_file w (.pstr iS) = .ok bi)
    (hda : save_base64_to_file w (.pstr aS) = .ok ba)
    (hpose : pyTruthy ((dictGet ji "pose_video_base64").getD .pnone) = false)
    (hsa : seedArgs ((dictGet ji "seed").getD (.pint (-1))) = .ok sa) :
    handler c w job = finishScratch (execAndCollect w
      (buildCmd c ((dictGet ji "size").getD (.pstr c.DEFAULT_SIZE))
        ((dictGet ji "prompt").getD (.pstr ""))
        ((dictGet ji "negative_prompt").getD (.pstr "blurry, low quality, distorted"))
        (pyStr ((dictGet ji "steps").getD (.pint c.DEFAULT_STEPS)))
        (pyStr ((dictGet ji "cfg").getD (.pfloat "5.0"))) sa
        (scratchDir ++ "/input" ++ imageExtStr iS)
        (scratchDir ++ "/input" ++ audioExtStr aS) scratchDir none)
      (stageTrace [scratchDir ++ "/input" ++ imageExtStr iS,
        scratchDir ++ "/input" ++ audioExtStr aS])) := by
  unfold handler
  rw [hw]
  simp only [body, hi, ha, Option.getD_some, Option.isNone_some, Bool.false_eq_true,
    if_false, imageExtOf, audioExtOf_pstr, hdi, hda, hpose, afterStaging, hsa]

/-- C9.  If the external program exits with code 0 but the scratch
directory afterwards contains no `*.mp4` file, the handler returns the
missing-output error shape carrying both the captured stdout and the
captured stderr of the program. -/
theorem C9_missing_output (c : Config) (w : World) (job : Job)
    (ji : List (String × PyVal)) (iS aS bi ba out err : String)
    (hw : dictGet job "input" = some (.pdict ji))
    (hi : dictGet ji "image_base64" = some (.pstr iS))
    (ha : dictGet ji "audio_base64" = some (.pstr aS))
    (hdi : save_base64_to_file w (.pstr iS) = .ok bi)
    (hda : save_base64_to_file w (.pstr aS) = .ok ba)
    (hpose : pyTruthy ((dictGet ji "pose_video_base64").getD .pnone) = false)
    (hseed : ∃ n : Int, (dictGet ji "seed").getD (.pint (-1)) = .pint n)
    (hrun : ∀ cmd, w.run cmd = .completed 0 out err)
    (hglob : w.glob = []) :
    (handler c w job).1 = .ret [("error", .pstr "No output video generated"),
      ("stdout", .pstr out), ("stderr", .pstr err)] := by
  obtain ⟨n, hn⟩ := hseed
  have hsa : ∃ sa, seedArgs ((dictGet ji "seed").getD (.pint (-1))) = .ok sa := by
    rw [hn]
    exact ⟨_, rfl⟩
  obtain ⟨sa, hsa⟩ := hsa
  rw [handler_to_exec c w job ji iS aS bi ba sa hw hi ha hdi hda hpose hsa]
  unfold execAndCollect
  rw [hrun _, hglob]
  simp [finishScratch]

/-- Witness for C9: a concrete valid job against a world whose program
exits 0 with streams `SO`/`SE` and produces no file. -/
theorem C9_missing_output_wit :
    (handler defaultConfig wNoOut jobOk).1
      = .ret [("error", .pstr "No output video generated"),
        ("stdout", .pstr "SO"), ("stderr", .pstr "SE")] :=
  C9_missing_output defaultConfig wNoOut jobOk _ "QUJD" "UkVG" "QUJD" "UkVG" "SO" "SE"
    rfl rfl rfl rfl rfl rfl ⟨-1, rfl⟩ (fun _ => rfl) rfl

/-- C10.  A request whose `pose_video_base64` field is present but falsy
behaves exactly -- same result, same trace (files written, command built,
process started) -- as the same request with the field absent: no pose
file is staged and no `--pose_video` argument is added. -/
theorem C10_falsy_pose (c : Config) (w : World)
    (ji1 ji2 : List (String × PyVal)) (v : PyVal)
    (hp1 : dictGet ji1 "pose_video_base64" = some v)
    (hv : pyTruthy v = false)
    (hp2 : dictGet ji2 "pose_video_base64" = none)
    (hrest : ∀ k, k ≠ "pose_video_base64" → dictGet ji1 k = dictGet ji2 k) :
    handler c w [("input", .pdict ji1)] = handler c w [("input", .pdict ji2)] := by
  have hi := hrest "image_base64" (by decide)
  have ha := hrest "audio_base64" (by decide)
  have hP := hrest "prompt" (by decide)
  have hN := hrest "negative_prompt" (by decide)
  have hS := hrest "size" (by decide)
  have hT := hrest "steps" (by decide)
  have hC := hrest "cfg" (by decide)
  have hE := hrest "seed" (by decide)
  unfold handler
  have hw1 : dictGet ([("input", JobVal.pdict ji1)] : Job) "input"
      = some (.pdict ji1) := rfl
  have hw2 : dictGet ([("input", JobVal.pdict ji2)] : Job) "input"
      = some (.pdict ji2) := rfl
  rw [hw1, hw2]
  simp only [body, hi, ha, hP, hN, hS, hT, hC, hE, hp1, hp2, hv,
    Option.getD_some, Option.getD_none]
  rfl

/-- Witness for C10: a concrete request with `pose_video_base64` equal to
the empty string behaves exactly as the same request without the field. -/
theorem C10_falsy_pose_wit :
    handler defaultConfig wHappy
      [("input", .pdict [("image_base64", .pstr "QUJD"), ("audio_base64", .pstr "UkVG"),
        ("pose_video_base64", .pstr "")])]
      = handler defaultConfig wHappy
      [("input", .pdict [("image_base64", .pstr "QUJD"), ("audio_base64", .pstr "UkVG")])] :=
  C10_falsy_pose defaultConfig wHappy _ _ (.pstr "") rfl rfl rfl
    (fun k hk => by
      by_cases h1 : "image_base64" = k
      · simp [dictGet, h1]
      · by_cases h2 : "audio_base64" = k
        · simp [dictGet, h1, h2]
        · simp [dictGet, h1, h2, Ne.symm hk])
